import Mathlib

/-!
Verification development for the multi-project merge engine
(`lib/riverscapes/riverscapes/merge-projects.py`).

The Python source is shallowly embedded: each relevant function is
translated into an executable Lean definition, with external effects
(filesystem existence checks, the GDAL/OGR geometry engine, subprocess
exit codes, the regex engine) passed in explicitly as parameters.
Line numbers in doc comments refer to `merge-projects.py`.
-/

/-! ## Metadata pruning pass (`delete_unmerged_paths`, lines 104-128) -/

/-- Python `str.lower()`, computed on the underlying character list. -/
def strLower (s : String) : String :=
  ⟨s.data.map Char.toLower⟩

/-- Python `str.endswith(suffix)`, computed on the underlying character lists. -/
def strEndsWith (s suff : String) : Bool :=
  suff.data.isSuffixOf s.data

/-- Line 119: `file_ext = ['gpkg', 'geojson', 'tif', 'tiff', 'log']`. -/
def file_ext : List String := ["gpkg", "geojson", "tif", "tiff", "log"]

/-- Line 120: `matches = [ext for ext in file_ext if path_element.text.lower().endswith(ext)]`. -/
def pathMatches (text : String) : List String :=
  file_ext.filter (fun ext => strEndsWith (strLower text) ext)

/-- Lines 120-121: a `<Path>` element's parent survives the pruning pass
exactly when `len(matches) != 0`, i.e. the lowercased path text ends with one
of the literal suffixes in `file_ext` (no dot separator involved). -/
def keepPath (text : String) : Bool :=
  (pathMatches text).length != 0

/-- A node of the parsed `project.rs.xml` document
(`xml.etree.ElementTree` element: tag, text, children). -/
inductive XElem where
  | mk (tag : String) (text : String) (children : List XElem)

def XElem.tag : XElem → String
  | .mk t _ _ => t

def XElem.text : XElem → String
  | .mk _ s _ => s

def XElem.children : XElem → List XElem
  | .mk _ _ c => c

/-- Lines 118-126: the element `c` is removed from its own parent (the
`grandparent` in the source) exactly when `c` has a direct child tagged
`Path` whose text fails the suffix test of line 120. -/
def removedParent (c : XElem) : Bool :=
  c.children.any (fun p => p.tag == "Path" && !keepPath p.text)

mutual
/-- `delete_unmerged_paths`, lines 104-128: for every `<Path>` element found
anywhere in the tree, its parent element is removed from the parent's own
parent when the path text matches none of the retained suffixes.  The
source iterates `tree.findall('.//Path')` with a parent map built once;
on a rose tree this is the recursive filter below: each element keeps
exactly those children that do not directly contain a failing `<Path>`,
and pruning continues inside the kept children. -/
def delete_unmerged_paths : XElem → XElem
  | .mk tag text children => .mk tag text (pruneChildren children)

/-- The child list of one element after the pruning pass. -/
def pruneChildren : List XElem → List XElem
  | [] => []
  | c :: rest =>
    if removedParent c then pruneChildren rest
    else delete_unmerged_paths c :: pruneChildren rest
end

/-- Helper: `pruneChildren` distributes over list append. -/
theorem pruneChildren_append (l₁ l₂ : List XElem) :
    pruneChildren (l₁ ++ l₂) = pruneChildren l₁ ++ pruneChildren l₂ := by
  induction l₁ with
  | nil => rfl
  | cons c rest ih =>
    simp only [List.cons_append, pruneChildren]
    by_cases h : removedParent c = true
    · simp [h, ih]
    · simp [h, ih]

/-- The file extension in the ordinary sense, as the spec's words use it:
the substring after the final dot (the whole string when no dot occurs). -/
def specFileExtension (s : String) : String :=
  ⟨(s.data.reverse.takeWhile (fun c => c ≠ '.')).reverse⟩

/-- The artifact kinds the spec says the merge retains, as file extensions:
container dataset (`gpkg`), vector-extent file (`geojson`), raster
(`tif`/`tiff`), log file (`log`). -/
def specRetainedExtensions : List String := ["gpkg", "geojson", "tif", "tiff", "log"]

/-- Helper: one entry holding a single `<Path>` declaration. -/
def pathEntry (ctag ctext p : String) : XElem :=
  .mk ctag ctext [.mk "Path" p []]

/-- Helper: the pruning pass keeps or drops a single-`<Path>` entry
according to `keepPath` and leaves it otherwise unchanged. -/
theorem prune_pathEntry (gtag gtext ctag ctext p : String)
    (before after : List XElem) :
    delete_unmerged_paths (.mk gtag gtext (before ++ pathEntry ctag ctext p :: after))
      = .mk gtag gtext (pruneChildren before ++
          (if keepPath p then [pathEntry ctag ctext p] else []) ++ pruneChildren after) := by
  have hrem : removedParent (pathEntry ctag ctext p) = !keepPath p := by
    simp [removedParent, pathEntry, XElem.tag, XElem.text, XElem.children]
  have hself : delete_unmerged_paths (pathEntry ctag ctext p) = pathEntry ctag ctext p := by
    simp [pathEntry, delete_unmerged_paths, pruneChildren, removedParent,
      XElem.tag, XElem.text, XElem.children]
  rw [delete_unmerged_paths, pruneChildren_append, pruneChildren, hrem]
  cases h : keepPath p with
  | true => simp [hself]
  | false => simp

/-- Helper: a nonempty filter result characterizes an element satisfying
the predicate. -/
theorem keepPath_iff (p : String) :
    keepPath p = true ↔ ∃ ext ∈ file_ext, strEndsWith (strLower p) ext = true := by
  have hkp : keepPath p = true ↔ pathMatches p ≠ [] := by
    simp [keepPath, List.length_eq_zero]
  rw [hkp]
  constructor
  · intro h
    obtain ⟨x, hx⟩ := List.exists_mem_of_ne_nil _ h
    rw [pathMatches, List.mem_filter] at hx
    exact ⟨x, hx.1, hx.2⟩
  · rintro ⟨x, hx1, hx2⟩
    intro hnil
    have hmem : x ∈ pathMatches p := List.mem_filter.mpr ⟨hx1, hx2⟩
    simp [hnil] at hmem

/-- C8 counterexample: the claim says an entry is removed exactly when the
declared path's file extension is not a retained artifact kind.  The path
`data.catalog` has extension `catalog`, which is not a retained kind, yet
the pruning pass keeps its entry (the text merely ends in the letters
`log`), so the removal condition is not extension-based. -/
theorem claim_C8_counterexample :
    specFileExtension "data.catalog" ∉ specRetainedExtensions ∧
    delete_unmerged_paths (.mk "Project" "" [pathEntry "Dataset" "" "data.catalog"])
      = .mk "Project" "" [pathEntry "Dataset" "" "data.catalog"] := by
  exact ⟨by decide, by rfl⟩

/-- C8 (amended): the pruning pass removes a declaration's entire parent
entry exactly when the declared path's lowercased text does not end with
one of the literal suffixes `gpkg`, `geojson`, `tif`, `tiff`, `log`
(a dotless suffix test, not a file-extension test); in particular a
declaration referencing `report.html` is removed and a declaration
referencing `dem.tif` is retained. -/
theorem claim_C8 :
    (∀ (gtag gtext ctag ctext p : String) (before after : List XElem),
      delete_unmerged_paths (.mk gtag gtext (before ++ pathEntry ctag ctext p :: after))
        = .mk gtag gtext (pruneChildren before ++
            (if keepPath p then [pathEntry ctag ctext p] else []) ++ pruneChildren after))
    ∧ keepPath "report.html" = false
    ∧ keepPath "dem.tif" = true
    ∧ delete_unmerged_paths
        (.mk "Project" "" [pathEntry "HTMLFile" "Report" "report.html",
                           pathEntry "Raster" "DEM" "dem.tif"])
      = .mk "Project" "" [pathEntry "Raster" "DEM" "dem.tif"] := by
  refine ⟨prune_pathEntry, by decide, by decide, by rfl⟩

/-- C10: the retention test of the pruning pass is a case-insensitive
string-suffix check against the literal strings `gpkg`, `geojson`, `tif`,
`tiff` and `log` with no dot separator: every declared path whose
lowercased text ends in one of those letter sequences has its entry
retained, even when its actual file extension (such as `catalog` or
`motif`) is not a retained artifact kind, and matching ignores case
(`DEM.TIF` is retained). -/
theorem claim_C10 :
    (∀ p : String, keepPath p = true ↔
        ∃ ext ∈ ["gpkg", "geojson", "tif", "tiff", "log"],
          strEndsWith (strLower p) ext = true)
    ∧ (∀ (gtag gtext ctag ctext p : String) (before after : List XElem),
        keepPath p = true →
        delete_unmerged_paths (.mk gtag gtext (before ++ pathEntry ctag ctext p :: after))
          = .mk gtag gtext (pruneChildren before ++ [pathEntry ctag ctext p] ++
              pruneChildren after))
    ∧ keepPath "data.catalog" = true
    ∧ specFileExtension "data.catalog" ∉ specRetainedExtensions
    ∧ keepPath "stained.motif" = true
    ∧ specFileExtension "stained.motif" ∉ specRetainedExtensions
    ∧ keepPath "DEM.TIF" = true := by
  refine ⟨keepPath_iff, ?_, by decide, by decide, by decide, by decide, by decide⟩
  intro gtag gtext ctag ctext p before after hp
  rw [prune_pathEntry, hp, if_pos rfl]

/-- C10 witness: the retention of `data.catalog` at a concrete tree. -/
theorem claim_C10_witness :
    keepPath "data.catalog" = true ∧
    delete_unmerged_paths
        (.mk "Project" "" ([] ++ pathEntry "Dataset" "Catalog" "data.catalog" :: []))
      = .mk "Project" "" (pruneChildren [] ++ [pathEntry "Dataset" "Catalog" "data.catalog"] ++
          pruneChildren []) :=
  ⟨by decide, claim_C10.2.1 "Project" "" "Dataset" "Catalog" "data.catalog" [] [] (by decide)⟩

/-! ## Identity catalogs (`get_raster_datasets` lines 346-369,
`get_vector_datasets` lines 239-271) -/

/-- One `<Raster>`/`<DEM>` declaration read from a project metadata tree
(lines 359-361: `id` attribute, `Path` text, `Name` text). -/
structure RasterDecl where
  id : String
  path : String
  name : String
deriving DecidableEq

/-- One raster catalog entry: the dict value built at line 368. -/
structure RasterEntry where
  path : String
  name : String
  id : String
  occurences : List String
deriving DecidableEq

/-- Python dicts preserve insertion order; both catalogs are modelled as
ordered association lists keyed by the dataset identity string. -/
abbrev Catalog (α : Type) := List (String × α)

/-- The Python mutation `master_project[key] = f(master_project[key])`:
rewrite the value stored at `key`, leaving every other entry alone. -/
def updateValue (m : Catalog α) (key : String) (f : α → α) : Catalog α :=
  m.map (fun kv => if kv.1 == key then (kv.1, f kv.2) else kv)

/-- Helper: updating at `k` rewrites exactly the value looked up at `k`. -/
theorem lookup_updateValue (m : Catalog α) (k : String) (f : α → α) :
    (updateValue m k f).lookup k = (m.lookup k).map f := by
  induction m with
  | nil => rfl
  | cons kv rest ih =>
    obtain ⟨k', v⟩ := kv
    simp only [updateValue, List.map_cons] at *
    by_cases h : k' = k
    · subst h
      rw [if_pos (by simp)]
      simp only [List.lookup, beq_self_eq_true]
      rfl
    · rw [if_neg (by simpa using h)]
      have h2 : (k == k') = false := by simpa using Ne.symm h
      simp only [List.lookup, h2]
      exact ih

/-- Helper: updating at `k` leaves lookups at other keys unchanged. -/
theorem lookup_updateValue_ne (m : Catalog α) (k k' : String) (f : α → α)
    (h : k' ≠ k) : (updateValue m k f).lookup k' = m.lookup k' := by
  induction m with
  | nil => rfl
  | cons kv rest ih =>
    obtain ⟨k₀, v⟩ := kv
    simp only [updateValue, List.map_cons] at *
    by_cases h0 : k₀ = k
    · subst h0
      rw [if_pos (by simp)]
      have h1 : (k' == k₀) = false := by simpa using h
      simp only [List.lookup, h1]
      exact ih
    · rw [if_neg (by simpa using h0)]
      by_cases h2 : k' = k₀
      · subst h2
        simp only [List.lookup, beq_self_eq_true]
      · have h3 : (k' == k₀) = false := by simpa using h2
        simp only [List.lookup, h3]
        exact ih

/-- Lines 358-369, the body of the per-raster loop of `get_raster_datasets`:
a declaration whose path matches no inclusion pattern is skipped and logged
(the compiled case-insensitive regex list of line 363 is modelled by the
predicate `includePath`); otherwise the first sight of an identity creates
its catalog entry (line 368) and every sight appends this project's
occurrence, `os.path.join(os.path.dirname(project), path)` (line 369). -/
def foldRasterDecl (projectDir : String) (includePath : String → Bool)
    (acc : Catalog RasterEntry × List String) (d : RasterDecl) :
    Catalog RasterEntry × List String :=
  if !includePath d.path then
    (acc.1, acc.2 ++ ["Skipping non-regex raster " ++ d.name ++ " with path " ++ d.path])
  else
    let master := if (acc.1.lookup d.id).isSome then acc.1
      else acc.1 ++ [(d.id, ⟨d.path, d.name, d.id, []⟩)]
    (updateValue master d.id
        (fun e => { e with occurences := e.occurences ++ [projectDir ++ "/" ++ d.path] }),
      acc.2)

/-- `get_raster_datasets` lines 346-369: fold every raster declaration of one
project into the cross-project catalog; returns the catalog and log lines. -/
def get_raster_datasets (projectDir : String) (decls : List RasterDecl)
    (master : Catalog RasterEntry) (includePath : String → Bool) :
    Catalog RasterEntry × List String :=
  decls.foldl (foldRasterDecl projectDir includePath) (master, [])

/-- One `<Vector>` layer declaration nested in a geopackage entry
(lines 264-266: `lyrName` attribute and `Name` text). -/
structure LayerDecl where
  fc_name : String
  name : String
deriving DecidableEq

/-- One `<Geopackage>` declaration (lines 252-254). -/
structure VectorDecl where
  id : String
  path : String
  name : String
  layers : List LayerDecl
deriving DecidableEq

/-- One layer entry of the vector catalog (line 269). -/
structure LayerEntry where
  fc_name : String
  name : String
  occurences : List String
deriving DecidableEq

/-- One geopackage entry of the vector catalog (line 261). -/
structure GpkgEntry where
  rel_path : String
  abs_path : String
  name : String
  id : String
  layers : Catalog LayerEntry
deriving DecidableEq

/-- Lines 264-271, the body of the per-layer loop: first sight of a layer
key creates its entry (line 269); every sight appends the current project's
geopackage path as an occurrence (line 271). -/
def foldLayerDecl (abs_path : String) (layers : Catalog LayerEntry)
    (ld : LayerDecl) : Catalog LayerEntry :=
  let layers' := if (layers.lookup ld.fc_name).isSome then layers
    else layers ++ [(ld.fc_name, ⟨ld.fc_name, ld.name, []⟩)]
  updateValue layers' ld.fc_name
    (fun le => { le with occurences := le.occurences ++ [abs_path] })

/-- Lines 251-271, the body of the per-geopackage loop of
`get_vector_datasets` (the skip log at line 257 says "raster" verbatim). -/
def foldVectorDecl (projectDir : String) (includePath : String → Bool)
    (acc : Catalog GpkgEntry × List String) (d : VectorDecl) :
    Catalog GpkgEntry × List String :=
  if !includePath d.path then
    (acc.1, acc.2 ++ ["Skipping non-regex raster " ++ d.name ++ " with path " ++ d.path])
  else
    let abs_path := projectDir ++ "/" ++ d.path
    let master := if (acc.1.lookup d.id).isSome then acc.1
      else acc.1 ++ [(d.id, ⟨d.path, abs_path, d.name, d.id, []⟩)]
    (updateValue master d.id
        (fun g => { g with layers := d.layers.foldl (foldLayerDecl abs_path) g.layers }),
      acc.2)

/-- `get_vector_datasets` lines 239-271. -/
def get_vector_datasets (projectDir : String) (decls : List VectorDecl)
    (master : Catalog GpkgEntry) (includePath : String → Bool) :
    Catalog GpkgEntry × List String :=
  decls.foldl (foldVectorDecl projectDir includePath) (master, [])

/-- C6: in catalog folding, the first occurrence of a dataset identity
establishes the catalog entry's display name and relative output path; a
subsequent occurrence of the same identity only appends a source path (for
geopackages, per-layer source paths), and leaves the stored display name
and output path untouched even when the later project's declaration
disagrees on them — the resulting entry is literally the stored entry with
only its occurrence lists extended. -/
theorem claim_C6 :
    (∀ (dir : String) (incl : String → Bool) (master : Catalog RasterEntry)
        (logs : List String) (d : RasterDecl) (e : RasterEntry),
      master.lookup d.id = some e → incl d.path = true →
      (foldRasterDecl dir incl (master, logs) d).1.lookup d.id
        = some { e with occurences := e.occurences ++ [dir ++ "/" ++ d.path] })
    ∧ (∀ (dir : String) (incl : String → Bool) (master : Catalog GpkgEntry)
        (logs : List String) (d : VectorDecl) (g : GpkgEntry),
      master.lookup d.id = some g → incl d.path = true →
      (foldVectorDecl dir incl (master, logs) d).1.lookup d.id
        = some { g with layers :=
            d.layers.foldl (foldLayerDecl (dir ++ "/" ++ d.path)) g.layers }) := by
  constructor
  · intro dir incl master logs d e hlook hincl
    simp only [foldRasterDecl, hincl, Bool.not_true, Bool.false_eq_true, if_false,
      hlook, Option.isSome_some, if_true]
    rw [lookup_updateValue, hlook]
    rfl
  · intro dir incl master logs d g hlook hincl
    simp only [foldVectorDecl, hincl, Bool.not_true, Bool.false_eq_true, if_false,
      hlook, Option.isSome_some, if_true]
    rw [lookup_updateValue, hlook]
    rfl

/-- A first-project raster entry used as concrete input. -/
def demRasterEntryA : RasterEntry :=
  ⟨"outputs/dem.tif", "DEM A", "dem", ["p1/outputs/dem.tif"]⟩

/-- A second-project raster declaration disagreeing on name and path. -/
def demRasterDeclB : RasterDecl :=
  ⟨"dem", "outputs/demB.tif", "DEM B"⟩

/-- A first-project geopackage entry used as concrete input. -/
def gpkgEntryA : GpkgEntry :=
  ⟨"outputs/net.gpkg", "p1/outputs/net.gpkg", "Network A", "network",
    [("reaches", ⟨"reaches", "Reaches", ["p1/outputs/net.gpkg"]⟩)]⟩

/-- A second-project geopackage declaration disagreeing on name and path. -/
def gpkgDeclB : VectorDecl :=
  ⟨"network", "outputs/netB.gpkg", "Network B", [⟨"reaches", "Reaches B"⟩]⟩

/-- C6 witness: folding the disagreeing second declarations into singleton
catalogs keeps the first project's name and path and appends one occurrence. -/
theorem claim_C6_witness :
    (foldRasterDecl "p2" (fun _ => true) ([("dem", demRasterEntryA)], [])
        demRasterDeclB).1.lookup "dem"
      = some ⟨"outputs/dem.tif", "DEM A", "dem",
          ["p1/outputs/dem.tif", "p2/outputs/demB.tif"]⟩ ∧
    (foldVectorDecl "p2" (fun _ => true) ([("network", gpkgEntryA)], [])
        gpkgDeclB).1.lookup "network"
      = some ⟨"outputs/net.gpkg", "p1/outputs/net.gpkg", "Network A", "network",
          [("reaches", ⟨"reaches", "Reaches",
            ["p1/outputs/net.gpkg", "p2/outputs/netB.gpkg"]⟩)]⟩ :=
  ⟨claim_C6.1 "p2" (fun _ => true) [("dem", demRasterEntryA)] []
      demRasterDeclB demRasterEntryA rfl rfl,
    claim_C6.2 "p2" (fun _ => true) [("network", gpkgEntryA)] []
      gpkgDeclB gpkgEntryA rfl rfl⟩

/-! ## Project bounds discovery (`get_bounds_geojson_file`, lines 225-236) -/

/-- `get_bounds_geojson_file` lines 225-236: read the declared extent path
(`.//ProjectBounds/Path`), join it to the project directory, and append it
to the running list only when the file exists on disk (`os.path.isfile`).
The function body contains no logging call; the second component of the
result is the list of log lines it emits, which is empty on both branches. -/
def get_bounds_geojson_file (projectDir : String) (boundsRel : String)
    (isFile : String → Bool) (bounds_files : List String) :
    List String × List String :=
  let abs_path := projectDir ++ "/" ++ boundsRel
  if isFile abs_path then (bounds_files ++ [abs_path], []) else (bounds_files, [])

/-! ## The per-project discovery loop of `merge_projects` (lines 45-79) -/

/-- An `xml.etree.ElementTree.ParseError` raised by `ET.parse`. -/
inductive ParseError where
  | malformed (msg : String)
deriving DecidableEq

/-- The declarations `merge_projects` reads from one project's metadata
tree through `get_raster_datasets`, `get_vector_datasets` and
`get_bounds_geojson_file`. -/
structure ParsedProject where
  rasters : List RasterDecl
  vectors : List VectorDecl
  boundsRel : String
deriving DecidableEq

/-- The loop state of `merge_projects` lines 53-57. -/
structure MergeScanState where
  project_rasters : Catalog RasterEntry
  project_vectors : Catalog GpkgEntry
  bounds_geojson_files : List String
  first_project_xml : Option String
deriving DecidableEq

/-- `os.path.join(proj_path, 'project.rs.xml')` (line 60). -/
def projectXmlPath (proj_path : String) : String :=
  proj_path ++ "/project.rs.xml"

/-- One iteration of the loop body (lines 60-68) once the metadata tree
has parsed.  Line 64 assigns `first_project_xml = project_xml`
unconditionally on every iteration, so after the loop the variable holds
the path of the LAST project processed. -/
def scanStep (incl : String → Bool) (isFile : String → Bool)
    (st : MergeScanState) (proj_path : String) (parsed : ParsedProject) :
    MergeScanState :=
  { project_rasters := (get_raster_datasets proj_path parsed.rasters st.project_rasters incl).1
    project_vectors := (get_vector_datasets proj_path parsed.vectors st.project_vectors incl).1
    bounds_geojson_files :=
      (get_bounds_geojson_file proj_path parsed.boundsRel isFile st.bounds_geojson_files).1
    first_project_xml := some (projectXmlPath proj_path) }

/-- The fold function of the discovery loop: each project's entry carries
the result of `ET.parse` on its `project.rs.xml`.  `merge_projects` has no
try/except, so a parse failure raised inside `get_raster_datasets`
propagates out of the loop (the guard at lines 61-63 compares the result
of `os.path.join` — never `None` — with `None`, so it never skips). -/
def scanFold (incl : String → Bool) (isFile : String → Bool)
    (st : MergeScanState) (pr : String × Except ParseError ParsedProject) :
    Except ParseError MergeScanState := do
  let parsed ← pr.2
  pure (scanStep incl isFile st pr.1 parsed)

/-- Lines 53-68: the whole discovery loop of `merge_projects`. -/
def mergeScan (incl : String → Bool) (isFile : String → Bool)
    (projects : List (String × Except ParseError ParsedProject)) :
    Except ParseError MergeScanState :=
  projects.foldlM (scanFold incl isFile) ⟨[], [], [], none⟩

/-- Helper: a parse failure aborts the fold from any starting state, as
long as the projects before it parsed successfully. -/
theorem scanFold_error (incl isFile : String → Bool) (st₀ : MergeScanState)
    (pre post : List (String × Except ParseError ParsedProject))
    (p : String) (e : ParseError)
    (hpre : ∀ q ∈ pre, ∃ r, q.2 = Except.ok r) :
    List.foldlM (scanFold incl isFile) st₀ (pre ++ (p, Except.error e) :: post)
      = Except.error e := by
  induction pre generalizing st₀ with
  | nil => rfl
  | cons q rest ih =>
    obtain ⟨r, hr⟩ := hpre q (List.mem_cons_self q rest)
    have hq : scanFold incl isFile st₀ q = Except.ok (scanStep incl isFile st₀ q.1 r) := by
      rw [scanFold, hr]
      rfl
    rw [List.cons_append, List.foldlM_cons, hq]
    exact ih _ (fun q' hq' => hpre q' (List.mem_cons_of_mem q hq'))

/-- Helper: binding an `ok` value in `Except`. -/
theorem except_bind_ok (a : α) (f : α → Except ε β) :
    (Except.ok a >>= f) = f a := rfl

/-- Helper: the parse of one project succeeded, so the fold step succeeds. -/
theorem scanFold_ok (incl isFile : String → Bool) (st : MergeScanState)
    (p : String) (r : ParsedProject) :
    scanFold incl isFile st (p, Except.ok r)
      = Except.ok (scanStep incl isFile st p r) := rfl

/-- Helper: when the loop completes, the template variable holds the last
project's metadata path, whatever came before. -/
theorem scanFold_last (incl isFile : String → Bool) (st₀ : MergeScanState)
    (projects : List (String × Except ParseError ParsedProject))
    (p : String) (r : ParsedProject) (st : MergeScanState)
    (h : List.foldlM (scanFold incl isFile) st₀ (projects ++ [(p, Except.ok r)])
        = Except.ok st) :
    st.first_project_xml = some (projectXmlPath p) := by
  induction projects generalizing st₀ with
  | nil =>
    have h' : Except.ok (scanStep incl isFile st₀ p r) = Except.ok st := h
    injection h' with h''
    rw [← h'']
    rfl
  | cons q rest ih =>
    rw [List.cons_append, List.foldlM_cons] at h
    cases hq : scanFold incl isFile st₀ q with
    | error e =>
      rw [hq] at h
      exact Except.noConfusion
        (show (Except.error e : Except ParseError MergeScanState) = Except.ok st from h)
    | ok st₁ =>
      rw [hq, except_bind_ok] at h
      exact ih st₁ h

/-- Metadata declarations of two well-formed demo projects. -/
def parsedA : ParsedProject := ⟨[], [], "project_bounds.geojson"⟩

/-- Second demo project (same shape, different directory). -/
def parsedB : ParsedProject := ⟨[], [], "project_bounds.geojson"⟩

/-- C1 (code bug): `merge_projects` is documented (lines 77-78, and the
variable name `first_project_xml`) to template the merged metadata tree on
the FIRST project, but line 64 reassigns the variable on every iteration,
so the template actually loaded at line 79 is the LAST project's tree:
whenever the loop ends successfully after a project `p`, the template path
is `p`'s metadata file, and on the concrete two-project input the template
is `projB/project.rs.xml`, not `projA/project.rs.xml`. -/
theorem claim_C1 :
    (∀ (incl isFile : String → Bool)
        (projects : List (String × Except ParseError ParsedProject))
        (p : String) (r : ParsedProject) (st : MergeScanState),
      mergeScan incl isFile (projects ++ [(p, Except.ok r)]) = Except.ok st →
      st.first_project_xml = some (projectXmlPath p))
    ∧ (mergeScan (fun _ => true) (fun _ => true)
        [("projA", Except.ok parsedA), ("projB", Except.ok parsedB)]).map
          MergeScanState.first_project_xml
      = Except.ok (some "projB/project.rs.xml")
    ∧ "projB/project.rs.xml" ≠ "projA/project.rs.xml" := by
  refine ⟨?_, by rfl, by decide⟩
  intro incl isFile projects p r st h
  exact scanFold_last incl isFile _ projects p r st h

/-- C1 witness: the general part applied to the concrete two-project run. -/
theorem claim_C1_witness :
    mergeScan (fun _ => true) (fun _ => true)
        ([("projA", Except.ok parsedA)] ++ [("projB", Except.ok parsedB)])
      = Except.ok ⟨[], [],
          ["projA/project_bounds.geojson", "projB/project_bounds.geojson"],
          some "projB/project.rs.xml"⟩ ∧
    (⟨[], [], ["projA/project_bounds.geojson", "projB/project_bounds.geojson"],
        some "projB/project.rs.xml"⟩ : MergeScanState).first_project_xml
      = some (projectXmlPath "projB") :=
  ⟨rfl, claim_C1.1 (fun _ => true) (fun _ => true) [("projA", Except.ok parsedA)]
    "projB" parsedB _ rfl⟩

/-- C3 counterexample: with the first project's metadata tree unparseable
and the second perfectly valid, the whole merge scan aborts with the parse
error — the second project is never reached, contradicting the claim that
the failure is contained at the per-project boundary and the merge
continues. -/
theorem claim_C3_counterexample :
    mergeScan (fun _ => true) (fun _ => true)
      [("projA", Except.error (ParseError.malformed "not well-formed")),
       ("projB", Except.ok parsedB)]
      = Except.error (ParseError.malformed "not well-formed") := rfl

/-- C3 (amended): a metadata-tree parse failure is NOT contained at the
per-project boundary: whatever well-parsed projects precede it and
whatever projects follow it, the first parse failure propagates out of the
discovery loop and aborts the whole merge (no skip, no continuation; the
skip-with-warning branch at lines 61-63 guards a condition that never
holds). -/
theorem claim_C3 :
    ∀ (incl isFile : String → Bool)
      (pre post : List (String × Except ParseError ParsedProject))
      (p : String) (e : ParseError),
      (∀ q ∈ pre, ∃ r, q.2 = Except.ok r) →
      mergeScan incl isFile (pre ++ (p, Except.error e) :: post) = Except.error e := by
  intro incl isFile pre post p e hpre
  exact scanFold_error incl isFile _ pre post p e hpre

/-- C3 witness: one valid project followed by an unparseable one. -/
theorem claim_C3_witness :
    mergeScan (fun _ => true) (fun _ => true)
      ([("projA", Except.ok parsedA)] ++
        ("projB", Except.error (ParseError.malformed "junk")) :: [])
      = Except.error (ParseError.malformed "junk") :=
  claim_C3 (fun _ => true) (fun _ => true) [("projA", Except.ok parsedA)] []
    "projB" (ParseError.malformed "junk")
    (fun q hq => by
      rw [List.mem_singleton] at hq
      subst hq
      exact ⟨parsedA, rfl⟩)

/-- C9 counterexample: a project whose declared extent-polygon file does
not exist on disk is skipped (nothing is appended to the bounds list) with
zero log lines emitted — a silent omission, contradicting the claim that
every skip is logged. -/
theorem claim_C9_counterexample :
    get_bounds_geojson_file "projA" "project_bounds.geojson" (fun _ => false) []
      = ([], []) := rfl

/-- C9 (amended): dataset declarations skipped by the inclusion filter are
always logged — both catalog builders append one log line per skipped
declaration — but a project whose declared extent-polygon file does not
exist on disk is skipped silently: `get_bounds_geojson_file` emits no log
line on any input. -/
theorem claim_C9 :
    (∀ (dir : String) (incl : String → Bool)
        (acc : Catalog RasterEntry × List String) (d : RasterDecl),
      incl d.path = false →
      foldRasterDecl dir incl acc d
        = (acc.1, acc.2 ++
            ["Skipping non-regex raster " ++ d.name ++ " with path " ++ d.path]))
    ∧ (∀ (dir : String) (incl : String → Bool)
        (acc : Catalog GpkgEntry × List String) (d : VectorDecl),
      incl d.path = false →
      foldVectorDecl dir incl acc d
        = (acc.1, acc.2 ++
            ["Skipping non-regex raster " ++ d.name ++ " with path " ++ d.path]))
    ∧ (∀ (dir rel : String) (isFile : String → Bool) (bfs : List String),
      (get_bounds_geojson_file dir rel isFile bfs).2 = [])
    ∧ (∀ (dir rel : String) (isFile : String → Bool) (bfs : List String),
      isFile (dir ++ "/" ++ rel) = false →
      get_bounds_geojson_file dir rel isFile bfs = (bfs, [])) := by
  refine ⟨?_, ?_, ?_, ?_⟩
  · intro dir incl acc d h
    simp [foldRasterDecl, h]
  · intro dir incl acc d h
    simp [foldVectorDecl, h]
  · intro dir rel isFile bfs
    by_cases hf : isFile (dir ++ "/" ++ rel) = true
    · simp [get_bounds_geojson_file, hf]
    · rw [Bool.not_eq_true] at hf
      simp [get_bounds_geojson_file, hf]
  · intro dir rel isFile bfs h
    simp [get_bounds_geojson_file, h]

/-- C9 witness: concrete skipped units — two logged catalog skips and one
silent bounds-file skip. -/
theorem claim_C9_witness :
    foldRasterDecl "p1" (fun _ => false) ([], []) demRasterDeclB
      = ([], ["Skipping non-regex raster DEM B with path outputs/demB.tif"]) ∧
    foldVectorDecl "p1" (fun _ => false) ([], []) gpkgDeclB
      = ([], ["Skipping non-regex raster Network B with path outputs/netB.gpkg"]) ∧
    get_bounds_geojson_file "p1" "project_bounds.geojson" (fun _ => false)
        ["keep.geojson"]
      = (["keep.geojson"], []) :=
  ⟨claim_C9.1 "p1" (fun _ => false) ([], []) demRasterDeclB rfl,
    claim_C9.2.1 "p1" (fun _ => false) ([], []) gpkgDeclB rfl,
    claim_C9.2.2.2 "p1" "project_bounds.geojson" (fun _ => false) ["keep.geojson"] rfl⟩

/-! ## Raster merging (`process_rasters`, lines 309-343) -/

/-- GDAL sample-data-type enum code `gdal.GDT_Byte`. -/
def GDT_Byte : Nat := 1

/-- GDAL enum code `gdal.GDT_UInt16`. -/
def GDT_UInt16 : Nat := 2

/-- GDAL enum code `gdal.GDT_Int16`. -/
def GDT_Int16 : Nat := 3

/-- GDAL enum code `gdal.GDT_UInt32`. -/
def GDT_UInt32 : Nat := 4

/-- GDAL enum code `gdal.GDT_Int32`. -/
def GDT_Int32 : Nat := 5

/-- GDAL enum code `gdal.GDT_Float32`. -/
def GDT_Float32 : Nat := 6

/-- GDAL enum code `gdal.GDT_Float64`. -/
def GDT_Float64 : Nat := 7

/-- Line 326: `integer_raster_enums = [gdal.GDT_Byte, gdal.GDT_UInt16,
gdal.GDT_UInt32, gdal.GDT_Int16, gdal.GDT_Int32]`. -/
def integer_raster_enums : List Nat :=
  [GDT_Byte, GDT_UInt16, GDT_UInt32, GDT_Int16, GDT_Int32]

/-- The engine's reading of one raster file header (`rscommons.Raster`):
its sample data type code and optional no-data sentinel. -/
structure GdalRaster where
  dataType : Nat
  nodata : Option ℚ
deriving DecidableEq

/-- Line 328: `no_data = f'-a_nodata {raster.nodata}' if raster.nodata is
not None else ''`. -/
def nodataArg : Option ℚ → String
  | some v => "-a_nodata " ++ toString v
  | none => ""

/-- Lines 330/332: the source wraps each path in double quotes. -/
def qstr (s : String) : String := "\"" ++ s ++ "\""

/-- Lines 319-335 for one catalog entry: open the FIRST occurrence to read
its data type and no-data sentinel (line 325, `occurences[0]`), pick the
codec from the data type (lines 326-327), and build the `gdal_merge.py`
parameter list of line 332.  An empty occurrence list makes
`occurences[0]` raise `IndexError`, modelled as `none`. -/
def processRasterEntry (output_dir : String) (readRaster : String → GdalRaster)
    (raster_info : RasterEntry) : Option (List String) :=
  raster_info.occurences.head?.map (fun first =>
    let raster := readRaster first
    let compression := "COMPRESS=" ++
      (if integer_raster_enums.contains raster.dataType then "DEFLATE" else "LZW")
    let no_data := nodataArg raster.nodata
    let output_raster_path := output_dir ++ "/" ++ raster_info.path
    ["gdal_merge.py", "-o", qstr output_raster_path, "-co", compression, no_data]
      ++ raster_info.occurences.map qstr)

/-- Lines 335-343: `subprocess.call` runs the mosaic and its return status
is discarded; then, when `delete_source` is set, every source raster path
that exists on disk is deleted.  Returns the list of deleted paths. -/
def processRasterDeletes (occurences : List String) (delete_source : Bool)
    (_mosaicExitCode : Int) (isFile : String → Bool) : List String :=
  if delete_source then occurences.filter (fun p => isFile p) else []

/-- C4 counterexample: with the delete-source flag set and the mosaic
having failed (exit status 1), the single existing source occurrence file
is deleted anyway — delete-after-failure, contradicting the claim that
sources of a failed mosaic remain on disk. -/
theorem claim_C4_counterexample :
    processRasterDeletes ["p1/outputs/slope.tif"] true 1 (fun _ => true)
      = ["p1/outputs/slope.tif"] := rfl

/-- C4 (amended): when the delete-source flag is set, every source
occurrence file that exists on disk is deleted after the mosaic invocation
regardless of the mosaic's exit status — the `subprocess.call` result is
never consulted, so deletion behaves identically for failed and successful
mosaics; with the flag clear nothing is deleted. -/
theorem claim_C4 :
    (∀ (occ : List String) (ds : Bool) (e e' : Int) (isFile : String → Bool),
      processRasterDeletes occ ds e isFile = processRasterDeletes occ ds e' isFile)
    ∧ (∀ (occ : List String) (e : Int) (isFile : String → Bool),
      processRasterDeletes occ true e isFile = occ.filter (fun p => isFile p))
    ∧ (∀ (occ : List String) (e : Int) (isFile : String → Bool),
      processRasterDeletes occ false e isFile = []) :=
  ⟨fun _ _ _ _ _ => rfl, fun _ _ _ => rfl, fun _ _ _ => rfl⟩

/-- C5: the mosaic inspects only the first occurrence's header; an
integer-typed first occurrence selects the lossless codec `DEFLATE`, a
floating-point one selects the (different) lossless codec `LZW`; and the
first occurrence's no-data sentinel is passed as `-a_nodata` exactly when
declared, with no override (empty argument) otherwise. -/
theorem claim_C5 :
    (∀ (dir : String) (rd : String → GdalRaster) (e : RasterEntry)
        (first : String) (rest : List String),
      e.occurences = first :: rest →
      (integer_raster_enums.contains (rd first).dataType = true →
        processRasterEntry dir rd e
          = some (["gdal_merge.py", "-o", qstr (dir ++ "/" ++ e.path), "-co",
              "COMPRESS=DEFLATE", nodataArg (rd first).nodata]
              ++ e.occurences.map qstr))
      ∧ ((rd first).dataType = GDT_Float32 ∨ (rd first).dataType = GDT_Float64 →
        processRasterEntry dir rd e
          = some (["gdal_merge.py", "-o", qstr (dir ++ "/" ++ e.path), "-co",
              "COMPRESS=LZW", nodataArg (rd first).nodata]
              ++ e.occurences.map qstr))
      ∧ (∀ rd' : String → GdalRaster, rd' first = rd first →
        processRasterEntry dir rd' e = processRasterEntry dir rd e))
    ∧ ("COMPRESS=DEFLATE" : String) ≠ "COMPRESS=LZW"
    ∧ (∀ v : ℚ, nodataArg (some v) = "-a_nodata " ++ toString v)
    ∧ nodataArg none = "" := by
  refine ⟨?_, by decide, fun v => rfl, rfl⟩
  intro dir rd e first rest h
  refine ⟨?_, ?_, ?_⟩
  · intro hint
    have hmem : (rd first).dataType ∈ integer_raster_enums := by simpa using hint
    simp [processRasterEntry, h, if_pos hmem]
  · intro hfloat
    have hni : integer_raster_enums.contains (rd first).dataType = false := by
      rcases hfloat with h6 | h6 <;> rw [h6] <;> decide
    have hnm : (rd first).dataType ∉ integer_raster_enums := by simpa using hni
    simp [processRasterEntry, h, if_neg hnm]
  · intro rd' hrd
    simp [processRasterEntry, h, hrd]

/-- C5 witness: a DEFLATE mosaic of an integer raster with a declared
sentinel, and an LZW mosaic of a float raster without one. -/
theorem claim_C5_witness :
    processRasterEntry "merged" (fun _ => ⟨3, some (-9999)⟩) demRasterEntryA
      = some ["gdal_merge.py", "-o", "\"merged/outputs/dem.tif\"", "-co",
          "COMPRESS=DEFLATE", "-a_nodata -9999", "\"p1/outputs/dem.tif\""] ∧
    processRasterEntry "merged" (fun _ => ⟨6, none⟩) demRasterEntryA
      = some ["gdal_merge.py", "-o", "\"merged/outputs/dem.tif\"", "-co",
          "COMPRESS=LZW", "", "\"p1/outputs/dem.tif\""] :=
  ⟨(claim_C5.1 "merged" (fun _ => ⟨3, some (-9999)⟩) demRasterEntryA
      "p1/outputs/dem.tif" [] rfl).1 (by decide),
    (claim_C5.1 "merged" (fun _ => ⟨6, none⟩) demRasterEntryA
      "p1/outputs/dem.tif" [] rfl).2.1 (Or.inl rfl)⟩

/-! ## Spatial union (`union_polygons`, lines 145-222) -/

/-- A polygon geometry, modelled extensionally as its point set; the ogr
(GEOS) `Union` primitive the source calls at line 192 is modelled as exact
set union — the "correct union implementation" the spec stipulates for
this operation. -/
abbrev Geom := Set (ℝ × ℝ)

/-- Lines 187-192: fold the layer's features pairwise — the first feature
seeds the accumulator (`Clone()`), each further feature is unioned in. -/
def union_fold (features : List Geom) : Option Geom :=
  features.foldl (fun union_result f =>
    match union_result with
    | none => some f
    | some u => some (u ∪ f)) none

/-- How `union_polygons` can fail.  `attributeErrorNoneType` is Python's
`AttributeError` from dereferencing `union_result = None` at line 196;
`insufficientInputError` is the error kind the spec names, which occurs
nowhere in the source. -/
inductive UnionFailure where
  | attributeErrorNoneType
  | insufficientInputError
deriving DecidableEq

/-- `union_polygons` lines 145-222: fold the features; with zero input
files the accumulator is still `None` when line 196 calls
`union_result.GetGeometryRef(0)` on it, raising `AttributeError`.  The
later steps (donut removal, centroid, envelope, file write, lines
194-222) are deterministic engine functions of the folded geometry, so
the folded geometry is the result returned here. -/
def union_polygons (features : List Geom) : Except UnionFailure Geom :=
  match union_fold features with
  | none => Except.error UnionFailure.attributeErrorNoneType
  | some u => Except.ok u

/-- Helper: once seeded, the fold never returns to `None`. -/
theorem union_fold_some (l : List Geom) : ∀ a : Geom,
    l.foldl (fun union_result f =>
      match union_result with
      | none => some f
      | some u => some (u ∪ f)) (some a)
      = some (l.foldl (fun u f => u ∪ f) a) := by
  induction l with
  | nil => intro a; rfl
  | cons b t ih => intro a; exact ih (a ∪ b)

/-- Helper: the fold of a nonempty feature list. -/
theorem union_fold_cons (a : Geom) (t : List Geom) :
    union_fold (a :: t) = some (t.foldl (fun u f => u ∪ f) a) :=
  union_fold_some t a

/-- Helper: `union_polygons` on a nonempty feature list succeeds with the
seeded fold. -/
theorem union_polygons_cons (a : Geom) (t : List Geom) :
    union_polygons (a :: t) = Except.ok (t.foldl (fun u f => u ∪ f) a) := by
  rw [union_polygons.eq_def, union_fold_cons]

/-- Helper: membership in the seeded union fold. -/
theorem mem_foldl_union (l : List Geom) : ∀ (a : Geom) (x : ℝ × ℝ),
    x ∈ l.foldl (fun u f => u ∪ f) a ↔ x ∈ a ∨ ∃ g ∈ l, x ∈ g := by
  induction l with
  | nil => intro a x; simp
  | cons b t ih =>
    intro a x
    simp only [List.foldl_cons, ih, Set.mem_union]
    constructor
    · rintro ((hx | hx) | ⟨g, hg, hx⟩)
      · exact Or.inl hx
      · exact Or.inr ⟨b, List.mem_cons_self b t, hx⟩
      · exact Or.inr ⟨g, List.mem_cons_of_mem b hg, hx⟩
    · rintro (hx | ⟨g, hg, hx⟩)
      · exact Or.inl (Or.inl hx)
      · rcases List.mem_cons.mp hg with h | h
        · subst h; exact Or.inl (Or.inr hx)
        · exact Or.inr ⟨g, h, hx⟩

/-- Helper: splitting an existential over a cons cell. -/
theorem exists_mem_cons_split (c : Geom) (m : List Geom) (x : ℝ × ℝ) :
    (x ∈ c ∨ ∃ g ∈ m, x ∈ g) ↔ ∃ g ∈ c :: m, x ∈ g := by
  constructor
  · rintro (hx | ⟨g, hg, hx⟩)
    · exact ⟨c, List.mem_cons_self c m, hx⟩
    · exact ⟨g, List.mem_cons_of_mem c hg, hx⟩
  · rintro ⟨g, hg, hx⟩
    rcases List.mem_cons.mp hg with h | h
    · subst h; exact Or.inl hx
    · exact Or.inr ⟨g, h, hx⟩

/-- C2 counterexample: on zero input files `union_polygons` fails with the
`None`-dereference `AttributeError` of line 196, which is not the
`InsufficientInputError` the claim names (that error kind appears nowhere
in the source). -/
theorem claim_C2_counterexample :
    union_polygons ([] : List Geom)
      = Except.error UnionFailure.attributeErrorNoneType ∧
    UnionFailure.attributeErrorNoneType ≠ UnionFailure.insufficientInputError :=
  ⟨rfl, by decide⟩

/-- C2 (amended): the spatial union fails exactly on zero input files, and
the failure is the `AttributeError` raised by dereferencing the `None`
accumulator at line 196 — not `InsufficientInputError`, which the code
never raises (no other error kind can occur either). -/
theorem claim_C2 :
    ∀ (features : List Geom) (e : UnionFailure),
      union_polygons features = Except.error e ↔
        features = [] ∧ e = UnionFailure.attributeErrorNoneType := by
  intro features e
  cases features with
  | nil =>
    constructor
    · intro h
      have h' : Except.error UnionFailure.attributeErrorNoneType
          = (Except.error e : Except UnionFailure Geom) := h
      injection h' with h''
      exact ⟨rfl, h''.symm⟩
    · rintro ⟨_, rfl⟩
      rfl
  | cons a t =>
    constructor
    · intro h
      rw [union_polygons_cons] at h
      exact Except.noConfusion h
    · rintro ⟨h, _⟩
      exact absurd h (List.cons_ne_nil a t)

/-- C2 witness: the zero-file failure, concretely. -/
theorem claim_C2_witness :
    union_polygons ([] : List Geom)
      = Except.error UnionFailure.attributeErrorNoneType :=
  (claim_C2 [] UnionFailure.attributeErrorNoneType).mpr ⟨rfl, rfl⟩

/-- C7: for every nonempty list of extent polygons and every permutation
of it, the spatial union operation produces the identical result — the
iterative pairwise fold is order-independent (with the engine's union
modelled as exact set union, the results are equal outright, hence in
particular equal in area). -/
theorem claim_C7 :
    ∀ (l l' : List Geom), l ≠ [] → l.Perm l' →
      union_polygons l = union_polygons l' := by
  intro l l' hne hperm
  cases l with
  | nil => exact absurd rfl hne
  | cons a t =>
    cases l' with
    | nil => exact absurd hperm.eq_nil hne
    | cons b t' =>
      rw [union_polygons_cons, union_polygons_cons]
      have hsets : t.foldl (fun u f => u ∪ f) a = t'.foldl (fun u f => u ∪ f) b := by
        apply Set.ext
        intro x
        rw [mem_foldl_union, mem_foldl_union, exists_mem_cons_split,
          exists_mem_cons_split]
        constructor
        · rintro ⟨g, hg, hx⟩
          exact ⟨g, hperm.mem_iff.mp hg, hx⟩
        · rintro ⟨g, hg, hx⟩
          exact ⟨g, hperm.mem_iff.mpr hg, hx⟩
      rw [hsets]

/-- Extent of the first demo project: the half-plane left of `x = 1`. -/
def geomA : Geom := {q : ℝ × ℝ | q.1 ≤ 1}

/-- Extent of the second demo project: the half-plane right of `x = 0`. -/
def geomB : Geom := {q : ℝ × ℝ | 0 ≤ q.1}

/-- C7 witness: swapping two concrete extent polygons leaves the union
result unchanged. -/
theorem claim_C7_witness :
    union_polygons [geomA, geomB] = union_polygons [geomB, geomA] :=
  claim_C7 [geomA, geomB] [geomB, geomA] (List.cons_ne_nil _ _)
    (List.Perm.swap _ _ _)
